import Mathlib

/-!
Shallow embedding of the user-record store and signal ledger of the
Golden-AI trading bot (src/database.py, src/signal_manager.py,
src/main.py), together with theorems settling the spec claims.

Modelling conventions:
* calendar dates (`trial_end`, `subscription_end`, `today`) are integer
  day numbers; timestamps (`created_at`, `last_activity`, `now`) are
  integers; prices and profit are rationals;
* the Python dict `self.users` is an association list `Store` with
  `lookupStore` / `insertStore` mirroring `dict.get` / item assignment;
* `**kwargs` of `update_user` is the structure `UpdateArgs`: one
  `Option` per field that some caller in the repository actually passes
  (`premium_since` and `last_activity` are set only inside
  `update_user`, never passed by a caller, hence absent);
* persistence (`save_users`, debouncing, backups) is pure I/O and is
  not part of any claim, so the embedded operations return the new
  in-memory store.
-/

namespace GoldenBot

/-- User record, mirroring the default dict of `UserDatabase.get_user`
(src/database.py lines 120-141). -/
structure UserRecord where
  user_id : Nat
  status : String
  country : Option String
  terms_accepted : Bool
  trial_end : Option Int
  subscription_end : Option Int
  full_name : Option String
  email : Option String
  account_number : Option String
  verified : Bool
  suspended : Bool
  suspension_reason : Option String
  created_at : Int
  last_activity : Int
  last_verification : Option Int
  verification_requests : Nat
  total_signals_received : Nat
  premium_since : Option Int
  language : Option String
  inactive : Bool
deriving Repr, DecidableEq

/-- The in-memory user map `self.users`. -/
abbrev Store := List (Nat × UserRecord)

/-- Embedding of `self.users.get(user_id)` (first match wins, as in a
dict with unique keys). -/
def lookupStore : Store → Nat → Option UserRecord
  | [], _ => none
  | p :: rest, uid => if p.1 = uid then some p.2 else lookupStore rest uid

/-- Embedding of `self.users[user_id] = v`: replace in place if the key
is present, append otherwise. -/
def insertStore : Store → Nat → UserRecord → Store
  | [], uid, v => [(uid, v)]
  | p :: rest, uid, v =>
      if p.1 = uid then (uid, v) :: rest else p :: insertStore rest uid v

/-- Default record synthesized by `get_user` for an unknown id
(src/database.py lines 122-141). -/
def defaultUser (now : Int) (uid : Nat) : UserRecord where
  user_id := uid
  status := "free"
  country := none
  terms_accepted := false
  trial_end := none
  subscription_end := none
  full_name := none
  email := none
  account_number := none
  verified := false
  suspended := false
  suspension_reason := none
  created_at := now
  last_activity := now
  last_verification := none
  verification_requests := 0
  total_signals_received := 0
  premium_since := none
  language := none
  inactive := false

/-- Embedding of `UserDatabase.get_user` (src/database.py lines
120-141): `self.users.get(user_id, default)`, a pure read. -/
def get_user (s : Store) (now : Int) (uid : Nat) : UserRecord :=
  (lookupStore s uid).getD (defaultUser now uid)

/-- Embedding of `get_user` together with its (absent) effect on
`self.users`: the source performs no write, so the store component of
the result is the input store. -/
def get_userS (s : Store) (now : Int) (uid : Nat) : UserRecord × Store :=
  (get_user s now uid, s)

/-- The `**kwargs` surface of `update_user`: each field that some caller
in the repository passes, as an `Option` (`none` = keyword absent).
Nullable record fields take `Option (Option _)` so a caller can pass an
explicit null, as `reactivate_user` does for `suspension_reason`. -/
structure UpdateArgs where
  status : Option String
  verified : Option Bool
  suspended : Option Bool
  suspension_reason : Option (Option String)
  last_verification : Option Int
  verification_requests : Option Nat
  trial_end : Option (Option Int)
  subscription_end : Option (Option Int)
  terms_accepted : Option Bool
  country : Option (Option String)
  full_name : Option (Option String)
  email : Option (Option String)
  account_number : Option (Option String)
  total_signals_received : Option Nat
  language : Option (Option String)
  inactive : Option Bool
deriving Repr, DecidableEq

/-- No keyword arguments. -/
def noArgs : UpdateArgs :=
  ⟨none, none, none, none, none, none, none, none,
   none, none, none, none, none, none, none, none⟩

/-- Embedding of `self.users[user_id].update(kwargs)` restricted to the
caller-passed keys (the internal `last_activity` / `premium_since`
entries are handled in `mergeUpdate`). -/
def applyArgs (u : UserRecord) (a : UpdateArgs) : UserRecord where
  user_id := u.user_id
  status := a.status.getD u.status
  country := a.country.getD u.country
  terms_accepted := a.terms_accepted.getD u.terms_accepted
  trial_end := a.trial_end.getD u.trial_end
  subscription_end := a.subscription_end.getD u.subscription_end
  full_name := a.full_name.getD u.full_name
  email := a.email.getD u.email
  account_number := a.account_number.getD u.account_number
  verified := a.verified.getD u.verified
  suspended := a.suspended.getD u.suspended
  suspension_reason := a.suspension_reason.getD u.suspension_reason
  created_at := u.created_at
  last_activity := u.last_activity
  last_verification :=
    match a.last_verification with
    | some t => some t
    | none => u.last_verification
  verification_requests := a.verification_requests.getD u.verification_requests
  total_signals_received :=
    a.total_signals_received.getD u.total_signals_received
  premium_since := u.premium_since
  language := a.language.getD u.language
  inactive := a.inactive.getD u.inactive

/-- Body of `update_user` on one record (src/database.py lines
154-162): refresh `last_activity`, stamp `premium_since` when the
passed status is premium and the stored status is not, merge. -/
def mergeUpdate (now : Int) (a : UpdateArgs) (u : UserRecord) : UserRecord :=
  let merged := applyArgs u a
  let merged := { merged with last_activity := now }
  if a.status = some "premium" ∧ u.status ≠ "premium" then
    { merged with premium_since := some now }
  else merged

/-- Embedding of `UserDatabase.update_user` (src/database.py lines
143-163): create from defaults if absent, then merge and write back. -/
def update_user (now : Int) (uid : Nat) (a : UpdateArgs) (s : Store) : Store :=
  let base := (lookupStore s uid).getD (defaultUser now uid)
  insertStore s uid (mergeUpdate now a base)

/-- Keyword set `status=<st>`, as passed by `get_user_status` and
`cleanup_expired_trials`. -/
def statusArgs (st : String) : UpdateArgs := { noArgs with status := some st }

/-- Embedding of `UserDatabase.suspend_user` (src/database.py lines
196-202). -/
def suspend_user (now : Int) (uid : Nat) (reason : String) (s : Store) : Store :=
  update_user now uid
    { noArgs with
        suspended := some true
        suspension_reason := some (some reason)
        status := some "suspended" } s

/-- Embedding of `UserDatabase.reactivate_user` (src/database.py lines
204-216). -/
def reactivate_user (now : Int) (uid : Nat) (s : Store) : Store :=
  let u := get_user s now uid
  let new_status := if u.verified then "premium" else "free"
  update_user now uid
    { noArgs with
        suspended := some false
        suspension_reason := some none
        status := some new_status } s

/-- Embedding of `UserDatabase.approve_user` (src/database.py lines
218-236): the trial branch fires when `status == 'trial'` and
`trial_end` is set (truthy). -/
def approve_user (now : Int) (uid : Nat) (s : Store) : Store :=
  let u := get_user s now uid
  if u.status = "trial" ∧ u.trial_end.isSome then
    update_user now uid
      { noArgs with
          verified := some true
          last_verification := some now } s
  else
    update_user now uid
      { noArgs with
          verified := some true
          status := some "premium"
          last_verification := some now } s

/-- Embedding of `get_user_status` (src/main.py lines 504-526): the
status read-path, returning the effective status and the possibly
updated store. -/
def get_user_status (s : Store) (now today : Int) (uid : Nat) :
    String × Store :=
  let u := get_user s now uid
  if u.status = "trial" then
    match u.trial_end with
    | some te =>
        if te ≤ today then
          if u.verified then
            ("premium", update_user now uid (statusArgs "premium") s)
          else
            ("free", update_user now uid (statusArgs "free") s)
        else ("trial", s)
    | none => ("trial", s)
  else if u.status = "premium" then
    match u.subscription_end with
    | some se =>
        if se < today then
          ("free", update_user now uid (statusArgs "free") s)
        else ("premium", s)
    | none => ("premium", s)
  else (u.status, s)

/-- Loop body of `cleanup_expired_trials` for one `(user_id, user_data)`
pair of the iteration snapshot (src/database.py lines 330-339). -/
def cleanupStep (now today : Int) (acc : Store × Nat) (p : Nat × UserRecord) :
    Store × Nat :=
  if p.2.status = "trial" then
    match p.2.trial_end with
    | some te =>
        if te < today then
          (update_user now p.1 (statusArgs "free") acc.1, acc.2 + 1)
        else acc
    | none => acc
  else acc

/-- Embedding of `UserDatabase.cleanup_expired_trials` (src/database.py
lines 325-344): fold the loop body over the entries, returning the new
store and `expired_count`. -/
def cleanup_expired_trials (now today : Int) (s : Store) : Store × Nat :=
  List.foldl (cleanupStep now today) (s, 0) s

/-- Result block of a signal (src/signal_manager.py lines 61-68). -/
structure SignalResults where
  hit_sl : Bool
  hit_tp : Bool
  manual_close : Bool
  close_price : Option ℚ
  close_time : Option Int
  profit_loss : ℚ
deriving Repr, DecidableEq

/-- Trading-signal record (src/signal_manager.py lines 50-69). -/
structure SignalRecord where
  signal_id : String
  type : String
  symbol : String
  action : String
  entry_price : ℚ
  stop_loss : ℚ
  take_profit : ℚ
  description : String
  created_at : Int
  status : String
  results : SignalResults
deriving Repr, DecidableEq

/-- The in-memory signal map `self.signals`. -/
abbrev Ledger := List (String × SignalRecord)

/-- Embedding of `self.signals.get(signal_id)`. -/
def lookupSig : Ledger → String → Option SignalRecord
  | [], _ => none
  | p :: rest, sid => if p.1 = sid then some p.2 else lookupSig rest sid

/-- Embedding of `self.signals[signal_id] = v`. -/
def insertSig : Ledger → String → SignalRecord → Ledger
  | [], sid, v => [(sid, v)]
  | p :: rest, sid, v =>
      if p.1 = sid then (sid, v) :: rest else p :: insertSig rest sid v

/-- Embedding of `SignalManager.create_signal` (src/signal_manager.py
lines 44-75). The generated id `"SIG_<timestamp>"` is taken as the
parameter `signal_id`; status starts active with zeroed results. -/
def create_signal (ledger : Ledger) (signal_id : String) (now : Int)
    (signal_type symbol action : String)
    (entry_price stop_loss take_profit : ℚ) (description : String) : Ledger :=
  insertSig ledger signal_id
    { signal_id := signal_id
      type := signal_type
      symbol := symbol
      action := action
      entry_price := entry_price
      stop_loss := stop_loss
      take_profit := take_profit
      description := description
      created_at := now
      status := "active"
      results :=
        { hit_sl := false
          hit_tp := false
          manual_close := false
          close_price := none
          close_time := none
          profit_loss := 0 } }

/-- Embedding of `SignalManager.close_signal` (src/signal_manager.py
lines 85-113): returns the bool result and the new ledger. -/
def close_signal (ledger : Ledger) (now : Int) (signal_id : String)
    (close_price : ℚ) (close_reason : String) : Bool × Ledger :=
  match lookupSig ledger signal_id with
  | none => (false, ledger)
  | some signal =>
      let r := signal.results
      let r := { r with close_price := some close_price, close_time := some now }
      let r :=
        if signal.action = "BUY" then
          { r with profit_loss := close_price - signal.entry_price }
        else
          { r with profit_loss := signal.entry_price - close_price }
      let r :=
        if close_reason = "sl" then { r with hit_sl := true }
        else if close_reason = "tp" then { r with hit_tp := true }
        else { r with manual_close := true }
      (true, insertSig ledger signal_id { signal with status := "closed", results := r })

/-- Accumulator of the loop in `get_signal_performance`. -/
structure PerfAcc where
  total_signals : Nat
  closed_signals : Nat
  profitable_signals : Nat
  total_profit : ℚ
  hit_sl_count : Nat
  hit_tp_count : Nat
deriving Repr, DecidableEq

/-- Aggregated statistics returned by `get_signal_performance`. -/
structure Perf where
  total_signals : Nat
  closed_signals : Nat
  profitable_signals : Nat
  win_rate : ℚ
  total_profit : ℚ
  hit_sl_count : Nat
  hit_tp_count : Nat
  avg_profit : ℚ
deriving Repr, DecidableEq

/-- Loop body of `get_signal_performance` for one signal
(src/signal_manager.py lines 250-268): skip signals created before the
cutoff, count the rest, and accumulate close statistics. -/
def perfStep (cutoff : Int) (acc : PerfAcc) (sig : SignalRecord) : PerfAcc :=
  if sig.created_at < cutoff then acc
  else
    let acc := { acc with total_signals := acc.total_signals + 1 }
    if sig.status = "closed" then
      let profit := sig.results.profit_loss
      let acc :=
        { acc with
            closed_signals := acc.closed_signals + 1
            total_profit := acc.total_profit + profit }
      let acc :=
        if profit > 0 then
          { acc with profitable_signals := acc.profitable_signals + 1 }
        else acc
      if sig.results.hit_sl then
        { acc with hit_sl_count := acc.hit_sl_count + 1 }
      else if sig.results.hit_tp then
        { acc with hit_tp_count := acc.hit_tp_count + 1 }
      else acc
    else acc

/-- Embedding of `SignalManager.get_signal_performance`
(src/signal_manager.py lines 239-281). `now` and `days` give the
cutoff `now - days*24*60*60`; division is guarded exactly as in the
source. -/
def get_signal_performance (ledger : Ledger) (now days : Int) : Perf :=
  let cutoff := now - days * 24 * 60 * 60
  let acc := List.foldl (perfStep cutoff) ⟨0, 0, 0, 0, 0, 0⟩ (ledger.map Prod.snd)
  { total_signals := acc.total_signals
    closed_signals := acc.closed_signals
    profitable_signals := acc.profitable_signals
    win_rate :=
      if acc.closed_signals > 0 then
        (acc.profitable_signals : ℚ) / (acc.closed_signals : ℚ) * 100
      else 0
    total_profit := acc.total_profit
    hit_sl_count := acc.hit_sl_count
    hit_tp_count := acc.hit_tp_count
    avg_profit :=
      if acc.closed_signals > 0 then
        acc.total_profit / (acc.closed_signals : ℚ)
      else 0 }

/-- Condition under which one entry of `cleanup_expired_trials` is
downgraded (src/database.py lines 331-335): status trial, `trial_end`
set, and strictly before today; `verified` is never consulted. -/
def cleanupCond (today : Int) (u : UserRecord) : Bool :=
  decide (u.status = "trial") &&
    match u.trial_end with
    | some te => decide (te < today)
    | none => false

/-- A signal that `get_signal_performance` counts as closed: created at
or after the cutoff (not skipped) and with status closed. -/
def inWindowClosed (cutoff : Int) (sig : SignalRecord) : Bool :=
  decide (cutoff ≤ sig.created_at) && decide (sig.status = "closed")

/-- A counted closed signal whose recorded profit_loss is positive. -/
def profitableClosed (cutoff : Int) (sig : SignalRecord) : Bool :=
  inWindowClosed cutoff sig && decide (sig.results.profit_loss > 0)

/-! ## Basic lemmas about the association-list maps -/

theorem lookupStore_insertStore (s : Store) (uid uid2 : Nat) (v : UserRecord) :
    lookupStore (insertStore s uid v) uid2 =
      if uid2 = uid then some v else lookupStore s uid2 := by
  induction s with
  | nil =>
      by_cases h : uid2 = uid
      · simp [insertStore, lookupStore, h]
      · simp [insertStore, lookupStore, h, Ne.symm h]
  | cons p rest ih =>
      by_cases hp : p.1 = uid
      · subst hp
        simp only [insertStore, if_pos rfl]
        by_cases h : uid2 = p.1
        · subst h; simp [lookupStore]
        · simp [lookupStore, h, Ne.symm h]
      · simp only [insertStore, if_neg hp]
        by_cases hq : p.1 = uid2
        · subst hq; simp [lookupStore, hp]
        · simp [lookupStore, hq, ih]

theorem lookupSig_insertSig (l : Ledger) (sid sid2 : String) (v : SignalRecord) :
    lookupSig (insertSig l sid v) sid2 =
      if sid2 = sid then some v else lookupSig l sid2 := by
  induction l with
  | nil =>
      by_cases h : sid2 = sid
      · simp [insertSig, lookupSig, h]
      · simp [insertSig, lookupSig, h, Ne.symm h]
  | cons p rest ih =>
      by_cases hp : p.1 = sid
      · subst hp
        simp only [insertSig, if_pos rfl]
        by_cases h : sid2 = p.1
        · subst h; simp [lookupSig]
        · simp [lookupSig, h, Ne.symm h]
      · simp only [insertSig, if_neg hp]
        by_cases hq : p.1 = sid2
        · subst hq; simp [lookupSig, hp]
        · simp [lookupSig, hq, ih]

theorem lookupStore_of_mem (s : Store) (hnd : (s.map Prod.fst).Nodup)
    {p : Nat × UserRecord} (hp : p ∈ s) : lookupStore s p.1 = some p.2 := by
  induction s with
  | nil => cases hp
  | cons q rest ih =>
      rcases List.mem_cons.mp hp with h | h
      · subst h; simp [lookupStore]
      · have hq : q.1 ≠ p.1 := by
          intro he
          exact (List.nodup_cons.mp (by simpa using hnd)).1
            (he ▸ List.mem_map_of_mem Prod.fst h)
        simp only [lookupStore, hq, if_false]
        exact ih (List.nodup_cons.mp (by simpa using hnd)).2 h

/-- Lookup in the updated store: the updated id maps to the merged
record, every other id is untouched. -/
theorem lookupStore_update_user (s : Store) (now : Int) (uid uid2 : Nat)
    (a : UpdateArgs) :
    lookupStore (update_user now uid a s) uid2 =
      if uid2 = uid then
        some (mergeUpdate now a ((lookupStore s uid).getD (defaultUser now uid)))
      else lookupStore s uid2 := by
  simp [update_user, lookupStore_insertStore]

/-! ## C8: default synthesis on unknown id, with no insertion -/

/-- C8. `get` on an id absent from the store returns the synthesized
default record — status `free`, `verified`/`suspended`/`terms_accepted`
false, every nullable field null — never raises (it is total), and does
not write: the store component of the result is the input store, so the
id is still absent afterwards. -/
theorem get_user_unknown_synthesizes_default (s : Store) (now : Int) (uid : Nat)
    (h : lookupStore s uid = none) :
    get_userS s now uid = (defaultUser now uid, s) ∧
    (get_userS s now uid).1.status = "free" ∧
    (get_userS s now uid).1.verified = false ∧
    (get_userS s now uid).1.suspended = false ∧
    (get_userS s now uid).1.terms_accepted = false ∧
    (get_userS s now uid).1.country = none ∧
    (get_userS s now uid).1.trial_end = none ∧
    (get_userS s now uid).1.subscription_end = none ∧
    (get_userS s now uid).1.full_name = none ∧
    (get_userS s now uid).1.email = none ∧
    (get_userS s now uid).1.account_number = none ∧
    (get_userS s now uid).1.suspension_reason = none ∧
    (get_userS s now uid).1.last_verification = none ∧
    (get_userS s now uid).1.premium_since = none ∧
    lookupStore (get_userS s now uid).2 uid = none := by
  simp [get_userS, get_user, h, defaultUser]

/-- Witness for C8 at the empty store and id 7. -/
theorem get_user_unknown_synthesizes_default_witness :
    lookupStore ([] : Store) 7 = none ∧
    get_userS ([] : Store) 0 7 = (defaultUser 0 7, ([] : Store)) ∧
    lookupStore (get_userS ([] : Store) 0 7).2 7 = none :=
  ⟨rfl, (get_user_unknown_synthesizes_default [] 0 7 rfl).1,
    (get_user_unknown_synthesizes_default [] 0 7 rfl).2.2.2.2.2.2.2.2.2.2.2.2.2.2⟩

/-! ## Projection lemmas for the merged record of `update_user` -/

theorem mergeUpdate_status (now : Int) (a : UpdateArgs) (u : UserRecord) :
    (mergeUpdate now a u).status = a.status.getD u.status := by
  simp only [mergeUpdate]; split <;> rfl

theorem mergeUpdate_verified (now : Int) (a : UpdateArgs) (u : UserRecord) :
    (mergeUpdate now a u).verified = a.verified.getD u.verified := by
  simp only [mergeUpdate]; split <;> rfl

theorem mergeUpdate_suspended (now : Int) (a : UpdateArgs) (u : UserRecord) :
    (mergeUpdate now a u).suspended = a.suspended.getD u.suspended := by
  simp only [mergeUpdate]; split <;> rfl

theorem mergeUpdate_suspension_reason (now : Int) (a : UpdateArgs) (u : UserRecord) :
    (mergeUpdate now a u).suspension_reason =
      a.suspension_reason.getD u.suspension_reason := by
  simp only [mergeUpdate]; split <;> rfl

theorem mergeUpdate_trial_end (now : Int) (a : UpdateArgs) (u : UserRecord) :
    (mergeUpdate now a u).trial_end = a.trial_end.getD u.trial_end := by
  simp only [mergeUpdate]; split <;> rfl

theorem mergeUpdate_last_verification (now : Int) (a : UpdateArgs) (u : UserRecord) :
    (mergeUpdate now a u).last_verification =
      match a.last_verification with
      | some t => some t
      | none => u.last_verification := by
  simp only [mergeUpdate]; split <;> rfl

theorem mergeUpdate_last_activity (now : Int) (a : UpdateArgs) (u : UserRecord) :
    (mergeUpdate now a u).last_activity = now := by
  simp only [mergeUpdate]; split <;> rfl

/-- The `premium_since` stamping rule of `update_user` on one merge:
stamped with `now` exactly when the passed status is premium and the
stored status is not, otherwise carried over unchanged (no caller ever
passes `premium_since` itself). -/
theorem mergeUpdate_premium_since (now : Int) (a : UpdateArgs) (u : UserRecord) :
    (mergeUpdate now a u).premium_since =
      if a.status = some "premium" ∧ u.status ≠ "premium" then some now
      else u.premium_since := by
  simp only [mergeUpdate]; split <;> simp_all [applyArgs]

/-! ## C2: admin transitions on an unknown id -/

/-- C2 counterexample. The claim says approve/suspend/reactivate yield
a "not found" outcome on an unknown id and do not create a record. On
the empty store, each of the three operations silently creates a record
for the missing id (and applies its transition to the synthesized
default), refuting the claim. -/
theorem admin_ops_unknown_id_counterexample :
    lookupStore (approve_user 0 1 []) 1 ≠ none ∧
    lookupStore (suspend_user 0 2 "low balance" []) 2 ≠ none ∧
    lookupStore (reactivate_user 0 3 []) 3 ≠ none := by
  refine ⟨?_, ?_, ?_⟩ <;> decide

/-- C2 amended. On an id with no existing record, approve, suspend and
reactivate do not signal "not found" (they return no success value at
all, mirroring the source's `None` return): each silently creates a
record from the synthesized defaults and applies its transition to it
— approve marks it verified premium, suspend marks it suspended, and
reactivate sets it to free (the default is unverified). -/
theorem admin_ops_unknown_id_create_record (s : Store) (now : Int) (uid : Nat)
    (reason : String) (h : lookupStore s uid = none) :
    (∃ u, lookupStore (approve_user now uid s) uid = some u ∧
      u.verified = true ∧ u.status = "premium" ∧
      u.last_verification = some now) ∧
    (∃ u, lookupStore (suspend_user now uid reason s) uid = some u ∧
      u.suspended = true ∧ u.status = "suspended" ∧
      u.suspension_reason = some reason) ∧
    (∃ u, lookupStore (reactivate_user now uid s) uid = some u ∧
      u.suspended = false ∧ u.status = "free" ∧
      u.suspension_reason = none) := by
  refine ⟨?_, ?_, ?_⟩
  · refine ⟨mergeUpdate now
        { noArgs with
            verified := some true
            status := some "premium"
            last_verification := some now } (defaultUser now uid),
      ?_, ?_, ?_, ?_⟩
    · simp [approve_user, get_user, h, defaultUser, lookupStore_update_user]
    all_goals simp [mergeUpdate, applyArgs, noArgs, defaultUser]
  · refine ⟨mergeUpdate now
        { noArgs with
            suspended := some true
            suspension_reason := some (some reason)
            status := some "suspended" } (defaultUser now uid),
      ?_, ?_, ?_, ?_⟩
    · simp [suspend_user, h, lookupStore_update_user]
    all_goals simp [mergeUpdate, applyArgs, noArgs, defaultUser]
  · refine ⟨mergeUpdate now
        { noArgs with
            suspended := some false
            suspension_reason := some none
            status := some "free" } (defaultUser now uid),
      ?_, ?_, ?_, ?_⟩
    · simp [reactivate_user, get_user, h, defaultUser, lookupStore_update_user]
    all_goals simp [mergeUpdate, applyArgs, noArgs, defaultUser]

/-- Witness for the amended C2 at the empty store. -/
theorem admin_ops_unknown_id_create_record_witness :
    lookupStore ([] : Store) 5 = none ∧
    (∃ u, lookupStore (approve_user 0 5 []) 5 = some u ∧
      u.verified = true ∧ u.status = "premium" ∧
      u.last_verification = some 0) :=
  ⟨rfl, (admin_ops_unknown_id_create_record [] 0 5 "r" rfl).1⟩

/-! ## C1: the status read-path -/

/-- C1. The status read-path: on a trial record whose `trial_end` is
set and ≤ today it writes premium (if verified) or free (if not) back
into the store and returns that status; on a premium record whose
`subscription_end` is set and < today it writes free and returns free;
in every other case it returns the stored status and leaves the store
unchanged. -/
theorem get_user_status_read_path (s : Store) (now today : Int) (uid : Nat) :
    ((get_user s now uid).status = "trial" →
      ∀ te, (get_user s now uid).trial_end = some te → te ≤ today →
        ((get_user s now uid).verified = true →
          get_user_status s now today uid =
            ("premium", update_user now uid (statusArgs "premium") s) ∧
          (lookupStore (get_user_status s now today uid).2 uid).map
              UserRecord.status = some "premium") ∧
        ((get_user s now uid).verified = false →
          get_user_status s now today uid =
            ("free", update_user now uid (statusArgs "free") s) ∧
          (lookupStore (get_user_status s now today uid).2 uid).map
              UserRecord.status = some "free")) ∧
    ((get_user s now uid).status = "trial" →
      ∀ te, (get_user s now uid).trial_end = some te → today < te →
        get_user_status s now today uid = ("trial", s)) ∧
    ((get_user s now uid).status = "trial" →
      (get_user s now uid).trial_end = none →
        get_user_status s now today uid = ("trial", s)) ∧
    ((get_user s now uid).status = "premium" →
      ∀ se, (get_user s now uid).subscription_end = some se → se < today →
        get_user_status s now today uid =
          ("free", update_user now uid (statusArgs "free") s) ∧
        (lookupStore (get_user_status s now today uid).2 uid).map
            UserRecord.status = some "free") ∧
    ((get_user s now uid).status = "premium" →
      ∀ se, (get_user s now uid).subscription_end = some se → today ≤ se →
        get_user_status s now today uid = ("premium", s)) ∧
    ((get_user s now uid).status = "premium" →
      (get_user s now uid).subscription_end = none →
        get_user_status s now today uid = ("premium", s)) ∧
    ((get_user s now uid).status ≠ "trial" →
      (get_user s now uid).status ≠ "premium" →
        get_user_status s now today uid = ((get_user s now uid).status, s)) := by
  refine ⟨?_, ?_, ?_, ?_, ?_, ?_, ?_⟩
  · intro hst te hte hle
    refine ⟨fun hv => ⟨?_, ?_⟩, fun hv => ⟨?_, ?_⟩⟩ <;>
      simp [get_user_status, hst, hte, hle, hv, lookupStore_update_user,
        mergeUpdate_status, statusArgs, noArgs]
  · intro hst te hte hlt
    simp [get_user_status, hst, hte, show ¬(te ≤ today) from not_le.mpr hlt]
  · intro hst hte
    simp [get_user_status, hst, hte]
  · intro hst se hse hlt
    refine ⟨?_, ?_⟩ <;>
      simp [get_user_status, hst, hse, hlt, lookupStore_update_user,
        mergeUpdate_status, statusArgs, noArgs]
  · intro hst se hse hle
    simp [get_user_status, hst, hse, show ¬(se < today) from not_lt.mpr hle]
  · intro hst hse
    simp [get_user_status, hst, hse]
  · intro h1 h2
    simp [get_user_status, h1, h2]

/-- Witness for C1: a verified trial user whose trial ended yesterday
is written back and reported premium. -/
theorem get_user_status_read_path_witness :
    (get_user [(1, { defaultUser 0 1 with
        status := "trial", trial_end := some 9, verified := true })] 0 1).status
      = "trial" ∧
    get_user_status [(1, { defaultUser 0 1 with
        status := "trial", trial_end := some 9, verified := true })] 0 10 1 =
      ("premium",
        update_user 0 1 (statusArgs "premium")
          [(1, { defaultUser 0 1 with
              status := "trial", trial_end := some 9, verified := true })]) := by
  refine ⟨by decide, ?_⟩
  exact ((get_user_status_read_path
      [(1, { defaultUser 0 1 with
          status := "trial", trial_end := some 9, verified := true })] 0 10 1).1
    (by decide) 9 (by decide) (by decide)).1 (by decide) |>.1

/-! ## C5: approve's trial asymmetry -/

/-- C5. `approve_user` is asymmetric: on a record on an active trial
(status `trial` with `trial_end` set, the source's check) it marks the
user verified and stamps `last_verification` while leaving `status`
unchanged; on any other record it marks the user verified, sets status
`premium` and stamps `last_verification`. -/
theorem approve_user_trial_asymmetry (s : Store) (now : Int) (uid : Nat)
    (u : UserRecord) (h : lookupStore s uid = some u) :
    (u.status = "trial" ∧ u.trial_end.isSome →
      ∃ u2, lookupStore (approve_user now uid s) uid = some u2 ∧
        u2.verified = true ∧ u2.last_verification = some now ∧
        u2.status = u.status) ∧
    (¬(u.status = "trial" ∧ u.trial_end.isSome) →
      ∃ u2, lookupStore (approve_user now uid s) uid = some u2 ∧
        u2.verified = true ∧ u2.status = "premium" ∧
        u2.last_verification = some now) := by
  have hg : get_user s now uid = u := by simp [get_user, h]
  constructor
  · intro hc
    refine ⟨mergeUpdate now
        { noArgs with verified := some true, last_verification := some now } u,
      ?_, ?_, ?_, ?_⟩
    · simp [approve_user, hg, hc, update_user, h, lookupStore_insertStore]
    · simp [mergeUpdate_verified, noArgs]
    · simp [mergeUpdate_last_verification, noArgs]
    · simp [mergeUpdate_status, noArgs]
  · intro hc
    refine ⟨mergeUpdate now
        { noArgs with
            verified := some true
            status := some "premium"
            last_verification := some now } u,
      ?_, ?_, ?_, ?_⟩
    · simp [approve_user, hg, hc, update_user, h, lookupStore_insertStore]
    · simp [mergeUpdate_verified, noArgs]
    · simp [mergeUpdate_status, noArgs]
    · simp [mergeUpdate_last_verification, noArgs]

/-- Witness for C5: a trial record keeps its trial status on approval,
a free record is promoted to premium. -/
theorem approve_user_trial_asymmetry_witness :
    (∃ u2, lookupStore (approve_user 4 1
        [(1, { defaultUser 0 1 with status := "trial", trial_end := some 9 })]) 1
        = some u2 ∧
      u2.verified = true ∧ u2.last_verification = some 4 ∧
      u2.status = ({ defaultUser 0 1 with
        status := "trial", trial_end := some 9 } : UserRecord).status) ∧
    (∃ u2, lookupStore (approve_user 4 2 [(2, defaultUser 0 2)]) 2 = some u2 ∧
      u2.verified = true ∧ u2.status = "premium" ∧
      u2.last_verification = some 4) :=
  ⟨(approve_user_trial_asymmetry
      [(1, { defaultUser 0 1 with status := "trial", trial_end := some 9 })]
      4 1 { defaultUser 0 1 with status := "trial", trial_end := some 9 }
      (by decide)).1 (by decide),
   (approve_user_trial_asymmetry [(2, defaultUser 0 2)] 4 2 (defaultUser 0 2)
      (by decide)).2 (by decide)⟩

/-! ## C6: suspend then reactivate round-trip -/

/-- C6. For an existing record, `suspend_user` followed by
`reactivate_user` restores `status` to `premium` when the record was
verified at suspend time and to `free` otherwise, and leaves the record
unsuspended with a null `suspension_reason`. -/
theorem suspend_reactivate_round_trip (s : Store) (now1 now2 : Int) (uid : Nat)
    (reason : String) (u : UserRecord) (h : lookupStore s uid = some u) :
    ∃ u2, lookupStore
        (reactivate_user now2 uid (suspend_user now1 uid reason s)) uid
        = some u2 ∧
      u2.status = (if u.verified then "premium" else "free") ∧
      u2.suspended = false ∧
      u2.suspension_reason = none := by
  set v1 := mergeUpdate now1
    { noArgs with
        suspended := some true
        suspension_reason := some (some reason)
        status := some "suspended" } u with hv1
  have h1 : lookupStore (suspend_user now1 uid reason s) uid = some v1 := by
    simp [suspend_user, update_user, h, lookupStore_insertStore, hv1]
  have hv : v1.verified = u.verified := by
    simp [hv1, mergeUpdate_verified, noArgs]
  refine ⟨mergeUpdate now2
      { noArgs with
          suspended := some false
          suspension_reason := some none
          status := some (if u.verified then "premium" else "free") } v1,
    ?_, ?_, ?_, ?_⟩
  · simp only [reactivate_user, get_user, h1, Option.getD_some, hv,
      update_user, lookupStore_insertStore, if_pos rfl, if_true]
  · simp only [mergeUpdate_status, noArgs, Option.getD_some]
  · simp [mergeUpdate_suspended, noArgs]
  · simp [mergeUpdate_suspension_reason, noArgs]

/-- Witness for C6 on a verified premium record. -/
theorem suspend_reactivate_round_trip_witness :
    ∃ u2, lookupStore
        (reactivate_user 8 1 (suspend_user 7 1 "low balance"
          [(1, { defaultUser 0 1 with status := "premium", verified := true })])) 1
        = some u2 ∧
      u2.status = (if ({ defaultUser 0 1 with
          status := "premium", verified := true } : UserRecord).verified
        then "premium" else "free") ∧
      u2.suspended = false ∧
      u2.suspension_reason = none :=
  suspend_reactivate_round_trip
    [(1, { defaultUser 0 1 with status := "premium", verified := true })]
    7 8 1 "low balance" _ (by decide)

/-! ## C7: premium_since stamping over update sequences -/

/-- C7. `premium_since` is stamped with the current time by an update
exactly when that update passes status `premium` and the stored status
is not premium; and over any sequence of further updates made while the
status stays premium (each passing either no status or status
`premium`, which is all a caller can do to keep it premium), the stamp
is never changed. -/
theorem premium_since_stamping :
    (∀ (s : Store) (now : Int) (uid : Nat) (a : UpdateArgs) (u : UserRecord),
      lookupStore s uid = some u →
      ∃ u2, lookupStore (update_user now uid a s) uid = some u2 ∧
        u2.premium_since =
          (if a.status = some "premium" ∧ u.status ≠ "premium" then some now
           else u.premium_since)) ∧
    (∀ (l : List (Int × UpdateArgs)) (s : Store) (uid : Nat) (u : UserRecord),
      lookupStore s uid = some u →
      u.status = "premium" →
      (∀ p ∈ l, p.2.status = none ∨ p.2.status = some "premium") →
      ∃ u2, lookupStore
          (List.foldl (fun st p => update_user p.1 uid p.2 st) s l) uid
          = some u2 ∧
        u2.status = "premium" ∧
        u2.premium_since = u.premium_since) := by
  constructor
  · intro s now uid a u h
    refine ⟨mergeUpdate now a u, ?_, ?_⟩
    · simp [update_user, h, lookupStore_insertStore]
    · exact mergeUpdate_premium_since now a u
  · intro l
    induction l with
    | nil =>
        intro s uid u h hst _
        exact ⟨u, h, hst, rfl⟩
    | cons p rest ih =>
        intro s uid u h hst hall
        have hstep : lookupStore (update_user p.1 uid p.2 s) uid =
            some (mergeUpdate p.1 p.2 u) := by
          simp [update_user, h, lookupStore_insertStore]
        have hst2 : (mergeUpdate p.1 p.2 u).status = "premium" := by
          rcases hall p (List.mem_cons_self p rest) with hn | hp
          · simp [mergeUpdate_status, hn, hst]
          · simp [mergeUpdate_status, hp]
        have hps2 : (mergeUpdate p.1 p.2 u).premium_since = u.premium_since := by
          rw [mergeUpdate_premium_since]
          simp [hst]
        obtain ⟨u2, hl2, hs2, hp2⟩ :=
          ih (update_user p.1 uid p.2 s) uid (mergeUpdate p.1 p.2 u)
            hstep hst2 (fun q hq => hall q (List.mem_cons_of_mem p hq))
        exact ⟨u2, hl2, hs2, hp2.trans hps2⟩

/-- Witness for C7: promoting a free user at time 5 stamps
`premium_since = 5`, and two further updates (one passing premium
again, one passing nothing) leave the stamp at 5. -/
theorem premium_since_stamping_witness :
    (∃ u2, lookupStore
        (update_user 5 1 (statusArgs "premium") [(1, defaultUser 0 1)]) 1
        = some u2 ∧
      u2.premium_since =
        (if (statusArgs "premium").status = some "premium" ∧
            (defaultUser 0 1).status ≠ "premium" then some 5
         else (defaultUser 0 1).premium_since)) ∧
    (∃ u2, lookupStore
        (List.foldl (fun st p => update_user p.1 1 p.2 st)
          [(1, { defaultUser 0 1 with
              status := "premium", premium_since := some 5 })]
          [(6, statusArgs "premium"), (7, noArgs)]) 1
        = some u2 ∧
      u2.status = "premium" ∧
      u2.premium_since = ({ defaultUser 0 1 with
          status := "premium", premium_since := some 5 } : UserRecord).premium_since) :=
  ⟨premium_since_stamping.1 [(1, defaultUser 0 1)] 5 1 (statusArgs "premium")
      (defaultUser 0 1) (by decide),
   premium_since_stamping.2 [(6, statusArgs "premium"), (7, noArgs)]
      [(1, { defaultUser 0 1 with status := "premium", premium_since := some 5 })]
      1 { defaultUser 0 1 with status := "premium", premium_since := some 5 }
      (by decide) (by decide) (by decide)⟩

/-! ## C4: close_signal semantics -/

/-- C4. Closing a signal present in the ledger returns true and writes
back a record with status closed, the close price and time, the
profit/loss per the BUY/SELL formula, and — when no result flag was set
yet, as on every freshly created signal — exactly the flag named by the
reason; closing an id not in the ledger returns false and leaves the
ledger unchanged. -/
theorem close_signal_spec (ledger : Ledger) (now : Int) (sid : String)
    (p : ℚ) (reason : String) :
    (lookupSig ledger sid = none →
      close_signal ledger now sid p reason = (false, ledger)) ∧
    (∀ sig, lookupSig ledger sid = some sig →
      (close_signal ledger now sid p reason).1 = true ∧
      (lookupSig (close_signal ledger now sid p reason).2 sid).map
          SignalRecord.status = some "closed" ∧
      (lookupSig (close_signal ledger now sid p reason).2 sid).map
          (fun sg => sg.results.close_price) = some (some p) ∧
      (lookupSig (close_signal ledger now sid p reason).2 sid).map
          (fun sg => sg.results.close_time) = some (some now) ∧
      (sig.action = "BUY" →
        (lookupSig (close_signal ledger now sid p reason).2 sid).map
            (fun sg => sg.results.profit_loss) = some (p - sig.entry_price)) ∧
      (sig.action = "SELL" →
        (lookupSig (close_signal ledger now sid p reason).2 sid).map
            (fun sg => sg.results.profit_loss) = some (sig.entry_price - p)) ∧
      (sig.results.hit_sl = false → sig.results.hit_tp = false →
        sig.results.manual_close = false →
        (reason = "sl" →
          (lookupSig (close_signal ledger now sid p reason).2 sid).map
              (fun sg => (sg.results.hit_sl, sg.results.hit_tp,
                sg.results.manual_close)) = some (true, false, false)) ∧
        (reason = "tp" →
          (lookupSig (close_signal ledger now sid p reason).2 sid).map
              (fun sg => (sg.results.hit_sl, sg.results.hit_tp,
                sg.results.manual_close)) = some (false, true, false)) ∧
        (reason ≠ "sl" → reason ≠ "tp" →
          (lookupSig (close_signal ledger now sid p reason).2 sid).map
              (fun sg => (sg.results.hit_sl, sg.results.hit_tp,
                sg.results.manual_close)) = some (false, false, true)))) := by
  constructor
  · intro h; simp [close_signal, h]
  · intro sig h
    refine ⟨?_, ?_, ?_, ?_, ?_, ?_, ?_⟩
    · simp [close_signal, h]
    · simp only [close_signal, h]
      repeat' split
      all_goals simp [lookupSig_insertSig]
    · simp only [close_signal, h]
      repeat' split
      all_goals simp [lookupSig_insertSig]
    · simp only [close_signal, h]
      repeat' split
      all_goals simp [lookupSig_insertSig]
    · intro hb
      simp only [close_signal, h]
      repeat' split
      all_goals simp_all [lookupSig_insertSig]
    · intro hb
      simp only [close_signal, h]
      repeat' split
      all_goals simp_all [lookupSig_insertSig]
    · intro h1 h2 h3
      refine ⟨?_, ?_, ?_⟩
      · intro hr
        simp only [close_signal, h]
        repeat' split
        all_goals simp_all [lookupSig_insertSig]
      · intro hr
        simp only [close_signal, h]
        repeat' split
        all_goals simp_all [lookupSig_insertSig]
      · intro hr1 hr2
        simp only [close_signal, h]
        repeat' split
        all_goals simp_all [lookupSig_insertSig]

/-- Witness for C4: closing an unknown id on the empty ledger fails;
closing a freshly created BUY signal at 110 against entry 100 yields
profit 10 with only the stop-loss flag set. -/
theorem close_signal_spec_witness :
    close_signal [] 1 "SIG_X" 110 "sl" = (false, []) ∧
    (close_signal (create_signal [] "SIG_1" 0 "entry" "XAUUSD" "BUY"
        100 95 120 "") 1 "SIG_1" 110 "sl").1 = true ∧
    (lookupSig (close_signal (create_signal [] "SIG_1" 0 "entry" "XAUUSD" "BUY"
        100 95 120 "") 1 "SIG_1" 110 "sl").2 "SIG_1").map
        (fun sg => sg.results.profit_loss) = some (110 - 100) ∧
    (lookupSig (close_signal (create_signal [] "SIG_1" 0 "entry" "XAUUSD" "BUY"
        100 95 120 "") 1 "SIG_1" 110 "sl").2 "SIG_1").map
        (fun sg => (sg.results.hit_sl, sg.results.hit_tp,
          sg.results.manual_close)) = some (true, false, false) := by
  have hbase := close_signal_spec (create_signal [] "SIG_1" 0 "entry" "XAUUSD"
    "BUY" 100 95 120 "") 1 "SIG_1" 110 "sl"
  have hnone := (close_signal_spec [] 1 "SIG_X" 110 "sl").1 rfl
  have hsig := hbase.2 _ (show lookupSig _ "SIG_1" = some _ from rfl)
  refine ⟨hnone, hsig.1, ?_, (hsig.2.2.2.2.2.2 rfl rfl rfl).1 rfl⟩
  have := hsig.2.2.2.2.1 rfl
  simpa using this

/-! ## C3: re-closing an already-closed signal -/

/-- C3 counterexample. The claim says a closed signal is immutable: a
second close does not recompute profit_loss, overwrite
close_price/close_time, or set another flag. Concretely: a BUY signal
with entry 100 closed at 110 for reason sl has profit 10 and only
hit_sl; a second close at 120 for reason tp succeeds and leaves profit
20, close_price 120, close_time 2, and both hit_sl and hit_tp set —
refuting the claim. -/
theorem close_signal_reclose_counterexample :
    (lookupSig (close_signal (create_signal [] "SIG_1" 0 "entry" "XAUUSD" "BUY"
        100 95 120 "") 1 "SIG_1" 110 "sl").2 "SIG_1").map
        (fun sg => (sg.status, sg.results.profit_loss, sg.results.close_price,
          sg.results.hit_sl, sg.results.hit_tp)) =
      some ("closed", 10, some 110, true, false) ∧
    (close_signal (close_signal (create_signal [] "SIG_1" 0 "entry" "XAUUSD"
        "BUY" 100 95 120 "") 1 "SIG_1" 110 "sl").2 2 "SIG_1" 120 "tp").1
      = true ∧
    (lookupSig (close_signal (close_signal (create_signal [] "SIG_1" 0 "entry"
        "XAUUSD" "BUY" 100 95 120 "") 1 "SIG_1" 110 "sl").2
        2 "SIG_1" 120 "tp").2 "SIG_1").map
        (fun sg => (sg.results.profit_loss, sg.results.close_price,
          sg.results.close_time, sg.results.hit_sl, sg.results.hit_tp)) =
      some (20, some 120, some 2, true, true) := by
  refine ⟨?_, ?_, ?_⟩
  · norm_num [create_signal, close_signal, insertSig, lookupSig]
  · decide
  · norm_num [create_signal, close_signal, insertSig, lookupSig]
    simp

/-- C3 amended. Re-closing is not guarded: a close call on a signal
whose status is already closed succeeds again, recomputes profit_loss
from the new close price, overwrites close_price and close_time, and
sets the flag for the new reason on top of whatever flags were already
set. -/
theorem close_signal_reclose_overwrites (ledger : Ledger) (now : Int)
    (sid : String) (p : ℚ) (reason : String) (sig : SignalRecord)
    (h : lookupSig ledger sid = some sig) (hclosed : sig.status = "closed") :
    (close_signal ledger now sid p reason).1 = true ∧
    (lookupSig (close_signal ledger now sid p reason).2 sid).map
        (fun sg => sg.results.close_price) = some (some p) ∧
    (lookupSig (close_signal ledger now sid p reason).2 sid).map
        (fun sg => sg.results.close_time) = some (some now) ∧
    (lookupSig (close_signal ledger now sid p reason).2 sid).map
        (fun sg => sg.results.profit_loss) =
      some (if sig.action = "BUY" then p - sig.entry_price
            else sig.entry_price - p) ∧
    (lookupSig (close_signal ledger now sid p reason).2 sid).map
        (fun sg => (sg.results.hit_sl, sg.results.hit_tp,
          sg.results.manual_close)) =
      some (if reason = "sl" then
              (true, sig.results.hit_tp, sig.results.manual_close)
            else if reason = "tp" then
              (sig.results.hit_sl, true, sig.results.manual_close)
            else (sig.results.hit_sl, sig.results.hit_tp, true)) := by
  refine ⟨?_, ?_, ?_, ?_, ?_⟩
  · simp [close_signal, h]
  all_goals
    simp only [close_signal, h]
    repeat' split
    all_goals simp_all [lookupSig_insertSig]

/-- Witness for the amended C3: re-closing a concrete already-closed
BUY signal at 120 for reason tp overwrites its results. -/
theorem close_signal_reclose_overwrites_witness :
    (close_signal [("SIG_1",
      { signal_id := "SIG_1", type := "entry", symbol := "XAUUSD"
        action := "BUY", entry_price := 100, stop_loss := 95
        take_profit := 120, description := "", created_at := 0
        status := "closed"
        results := { hit_sl := true, hit_tp := false, manual_close := false
                     close_price := some 110, close_time := some 1
                     profit_loss := 10 } })] 2 "SIG_1" 120 "tp").1 = true ∧
    (lookupSig (close_signal [("SIG_1",
      { signal_id := "SIG_1", type := "entry", symbol := "XAUUSD"
        action := "BUY", entry_price := 100, stop_loss := 95
        take_profit := 120, description := "", created_at := 0
        status := "closed"
        results := { hit_sl := true, hit_tp := false, manual_close := false
                     close_price := some 110, close_time := some 1
                     profit_loss := 10 } })] 2 "SIG_1" 120 "tp").2 "SIG_1").map
        (fun sg => sg.results.close_price) = some (some 120) := by
  have hmain := close_signal_reclose_overwrites [("SIG_1",
    { signal_id := "SIG_1", type := "entry", symbol := "XAUUSD"
      action := "BUY", entry_price := 100, stop_loss := 95
      take_profit := 120, description := "", created_at := 0
      status := "closed"
      results := { hit_sl := true, hit_tp := false, manual_close := false
                   close_price := some 110, close_time := some 1
                   profit_loss := 10 } })] 2 "SIG_1" 120 "tp"
    { signal_id := "SIG_1", type := "entry", symbol := "XAUUSD"
      action := "BUY", entry_price := 100, stop_loss := 95
      take_profit := 120, description := "", created_at := 0
      status := "closed"
      results := { hit_sl := true, hit_tp := false, manual_close := false
                   close_price := some 110, close_time := some 1
                   profit_loss := 10 } } (by decide) (by decide)
  exact ⟨hmain.1, hmain.2.1⟩

/-! ## C9: performance aggregation -/

theorem perfStep_closed (cutoff : Int) (acc : PerfAcc) (sig : SignalRecord) :
    (perfStep cutoff acc sig).closed_signals =
      acc.closed_signals + (if inWindowClosed cutoff sig then 1 else 0) := by
  by_cases h1 : sig.created_at < cutoff
  · simp [perfStep, inWindowClosed, h1, not_le.mpr h1]
  · by_cases h2 : sig.status = "closed"
    · simp only [perfStep, if_neg h1, if_pos h2]
      repeat' split
      all_goals simp_all [inWindowClosed, not_lt.mp h1, h2]
    · simp [perfStep, inWindowClosed, h1, h2]

theorem perfStep_profitable (cutoff : Int) (acc : PerfAcc) (sig : SignalRecord) :
    (perfStep cutoff acc sig).profitable_signals =
      acc.profitable_signals +
        (if profitableClosed cutoff sig then 1 else 0) := by
  by_cases h1 : sig.created_at < cutoff
  · simp [perfStep, profitableClosed, inWindowClosed, h1, not_le.mpr h1]
  · by_cases h2 : sig.status = "closed"
    · by_cases h3 : sig.results.profit_loss > 0
      · simp only [perfStep, if_neg h1, if_pos h2, if_pos h3]
        repeat' split
        all_goals
          simp_all [profitableClosed, inWindowClosed, not_lt.mp h1, h2, h3]
      · simp only [perfStep, if_neg h1, if_pos h2, if_neg h3]
        repeat' split
        all_goals
          simp_all [profitableClosed, inWindowClosed, not_lt.mp h1, h2, h3]
        all_goals linarith
    · simp [perfStep, profitableClosed, inWindowClosed, h1, h2]

theorem perf_foldl_closed (cutoff : Int) (l : List SignalRecord) (acc : PerfAcc) :
    (List.foldl (perfStep cutoff) acc l).closed_signals =
      acc.closed_signals + l.countP (inWindowClosed cutoff) := by
  induction l generalizing acc with
  | nil => simp
  | cons x xs ih =>
      simp only [List.foldl_cons, List.countP_cons, ih, perfStep_closed]
      by_cases hx : inWindowClosed cutoff x
      · simp only [hx, if_true, if_pos]
        omega
      · simp [hx]

theorem perf_foldl_profitable (cutoff : Int) (l : List SignalRecord)
    (acc : PerfAcc) :
    (List.foldl (perfStep cutoff) acc l).profitable_signals =
      acc.profitable_signals + l.countP (profitableClosed cutoff) := by
  induction l generalizing acc with
  | nil => simp
  | cons x xs ih =>
      simp only [List.foldl_cons, List.countP_cons, ih, perfStep_profitable]
      by_cases hx : profitableClosed cutoff x
      · simp only [hx, if_true, if_pos]
        omega
      · simp [hx]

/-- C9. With no in-window closed signal (in particular on the empty
ledger) performance reports `win_rate = 0` and `avg_profit = 0` — the
guarded division never runs — and with at least one in-window closed
signal `win_rate` is the profitable count over the closed count times
100. -/
theorem get_signal_performance_win_rate (ledger : Ledger) (now days : Int) :
    ((ledger.map Prod.snd).countP
        (inWindowClosed (now - days * 24 * 60 * 60)) = 0 →
      (get_signal_performance ledger now days).win_rate = 0 ∧
      (get_signal_performance ledger now days).avg_profit = 0) ∧
    (0 < (ledger.map Prod.snd).countP
        (inWindowClosed (now - days * 24 * 60 * 60)) →
      (get_signal_performance ledger now days).win_rate =
        ((ledger.map Prod.snd).countP
            (profitableClosed (now - days * 24 * 60 * 60)) : ℚ) /
          ((ledger.map Prod.snd).countP
            (inWindowClosed (now - days * 24 * 60 * 60)) : ℚ) * 100) := by
  have hclosed : (List.foldl (perfStep (now - days * 24 * 60 * 60))
      ⟨0, 0, 0, 0, 0, 0⟩ (ledger.map Prod.snd)).closed_signals =
      (ledger.map Prod.snd).countP (inWindowClosed (now - days * 24 * 60 * 60)) := by
    simp [perf_foldl_closed]
  have hprof : (List.foldl (perfStep (now - days * 24 * 60 * 60))
      ⟨0, 0, 0, 0, 0, 0⟩ (ledger.map Prod.snd)).profitable_signals =
      (ledger.map Prod.snd).countP (profitableClosed (now - days * 24 * 60 * 60)) := by
    simp [perf_foldl_profitable]
  constructor
  · intro h0
    constructor
    · simp only [get_signal_performance]
      rw [hclosed, h0]
      simp
    · simp only [get_signal_performance]
      rw [hclosed, h0]
      simp
  · intro hpos
    simp only [get_signal_performance]
    rw [hclosed, hprof, if_pos hpos]

/-- Witness for C9: the empty ledger has zero win rate and average
profit, and a one-signal ledger whose only signal is closed in-window
gets the unguarded win-rate formula. -/
theorem get_signal_performance_win_rate_witness :
    (([] : Ledger).map Prod.snd).countP (inWindowClosed (100 - 30 * 24 * 60 * 60))
        = 0 ∧
    (get_signal_performance [] 100 30).win_rate = 0 ∧
    (get_signal_performance [] 100 30).avg_profit = 0 ∧
    0 < (([("SIG_1",
      { signal_id := "SIG_1", type := "entry", symbol := "XAUUSD"
        action := "BUY", entry_price := 100, stop_loss := 95
        take_profit := 120, description := "", created_at := 100
        status := "closed"
        results := { hit_sl := false, hit_tp := true, manual_close := false
                     close_price := some 110, close_time := some 1
                     profit_loss := 10 } })] : Ledger).map Prod.snd).countP
        (inWindowClosed (100 - 30 * 24 * 60 * 60)) ∧
    (get_signal_performance [("SIG_1",
      { signal_id := "SIG_1", type := "entry", symbol := "XAUUSD"
        action := "BUY", entry_price := 100, stop_loss := 95
        take_profit := 120, description := "", created_at := 100
        status := "closed"
        results := { hit_sl := false, hit_tp := true, manual_close := false
                     close_price := some 110, close_time := some 1
                     profit_loss := 10 } })] 100 30).win_rate =
      ((([("SIG_1",
        { signal_id := "SIG_1", type := "entry", symbol := "XAUUSD"
          action := "BUY", entry_price := 100, stop_loss := 95
          take_profit := 120, description := "", created_at := 100
          status := "closed"
          results := { hit_sl := false, hit_tp := true, manual_close := false
                       close_price := some 110, close_time := some 1
                       profit_loss := 10 } })] : Ledger).map Prod.snd).countP
          (profitableClosed (100 - 30 * 24 * 60 * 60)) : ℚ) /
        ((([("SIG_1",
        { signal_id := "SIG_1", type := "entry", symbol := "XAUUSD"
          action := "BUY", entry_price := 100, stop_loss := 95
          take_profit := 120, description := "", created_at := 100
          status := "closed"
          results := { hit_sl := false, hit_tp := true, manual_close := false
                       close_price := some 110, close_time := some 1
                       profit_loss := 10 } })] : Ledger).map Prod.snd).countP
          (inWindowClosed (100 - 30 * 24 * 60 * 60)) : ℚ) * 100 := by
  have h1 := (get_signal_performance_win_rate [] 100 30).1 (by decide)
  have h2 := (get_signal_performance_win_rate [("SIG_1",
    { signal_id := "SIG_1", type := "entry", symbol := "XAUUSD"
      action := "BUY", entry_price := 100, stop_loss := 95
      take_profit := 120, description := "", created_at := 100
      status := "closed"
      results := { hit_sl := false, hit_tp := true, manual_close := false
                   close_price := some 110, close_time := some 1
                   profit_loss := 10 } })] 100 30).2 (by decide)
  exact ⟨by decide, h1.1, h1.2, by decide, h2⟩

/-! ## C10: cleanup of expired trials versus the read-path -/

theorem lookupStore_eq_none_of_not_mem (l : Store) (uid : Nat)
    (h : uid ∉ l.map Prod.fst) : lookupStore l uid = none := by
  induction l with
  | nil => rfl
  | cons p rest ih =>
      simp only [List.map_cons, List.mem_cons, not_or] at h
      have hne : p.1 ≠ uid := fun he => h.1 he.symm
      simp only [lookupStore, if_neg hne]
      exact ih h.2

/-- Characterization of the `cleanup_expired_trials` loop: folding the
loop body over an entry list with distinct keys that agrees with the
accumulator store rewrites exactly the entries satisfying the cleanup
condition to their status-free merge, and touches nothing else. -/
theorem cleanup_foldl_lookup (now today : Int) :
    ∀ (l : List (Nat × UserRecord)) (acc : Store × Nat),
      (l.map Prod.fst).Nodup →
      (∀ q ∈ l, lookupStore acc.1 q.1 = some q.2) →
      ∀ uid,
        lookupStore (List.foldl (cleanupStep now today) acc l).1 uid =
          match lookupStore l uid with
          | some u =>
              some (if cleanupCond today u then
                mergeUpdate now (statusArgs "free") u else u)
          | none => lookupStore acc.1 uid := by
  intro l
  induction l with
  | nil => intro acc _ _ uid; rfl
  | cons p rest ih =>
      intro acc hnd hagree uid
      have hndr : (rest.map Prod.fst).Nodup :=
        (List.nodup_cons.mp (by simpa using hnd)).2
      have hpnotin : p.1 ∉ rest.map Prod.fst :=
        (List.nodup_cons.mp (by simpa using hnd)).1
      have hbase : lookupStore acc.1 p.1 = some p.2 :=
        hagree p (List.mem_cons_self p rest)
      have hstep1 : (cleanupStep now today acc p).1 =
          (if cleanupCond today p.2 then
            insertStore acc.1 p.1 (mergeUpdate now (statusArgs "free") p.2)
          else acc.1) := by
        by_cases hst : p.2.status = "trial"
        · rcases hte : p.2.trial_end with _ | te
          · simp [cleanupStep, cleanupCond, hst, hte]
          · by_cases hlt : te < today
            · simp [cleanupStep, cleanupCond, hst, hte, hlt, update_user, hbase]
            · simp [cleanupStep, cleanupCond, hst, hte, hlt]
        · simp [cleanupStep, cleanupCond, hst]
      have hagree2 : ∀ q ∈ rest,
          lookupStore (cleanupStep now today acc p).1 q.1 = some q.2 := by
        intro q hq
        have hne : q.1 ≠ p.1 :=
          fun he => hpnotin (he ▸ List.mem_map_of_mem Prod.fst hq)
        rw [hstep1]
        split
        · rw [lookupStore_insertStore, if_neg hne]
          exact hagree q (List.mem_cons_of_mem p hq)
        · exact hagree q (List.mem_cons_of_mem p hq)
      have hmain := ih (cleanupStep now today acc p) hndr hagree2 uid
      simp only [List.foldl_cons]
      rw [hmain]
      by_cases huid : p.1 = uid
      · have hnone : lookupStore rest uid = none :=
          lookupStore_eq_none_of_not_mem rest uid (huid ▸ hpnotin)
        rw [hnone]
        simp only [lookupStore, if_pos huid]
        rw [hstep1]
        split
        · rw [lookupStore_insertStore, if_pos huid.symm]
        · rw [← huid, hbase]
      · simp only [lookupStore, if_neg huid]
        rcases hre : lookupStore rest uid with _ | u
        · show lookupStore (cleanupStep now today acc p).1 uid =
            lookupStore acc.1 uid
          rw [hstep1]
          split
          · rw [lookupStore_insertStore, if_neg (fun he => huid he.symm)]
          · rfl
        · rfl

/-- C10. The bulk cleanup downgrades to free, with an immediate write,
exactly those records with status trial and `trial_end` strictly before
today (`cleanupCond`), never consulting `verified`; so a verified user
whose trial ended before today is downgraded to free by cleanup while
the status read-path would report premium for the same store; and a
trial ending exactly today is expired by the read-path (≤ comparison)
but left untouched by cleanup (< comparison). -/
theorem cleanup_expired_trials_vs_read_path (s : Store) (now today : Int)
    (hnd : (s.map Prod.fst).Nodup) :
    (∀ uid u, lookupStore s uid = some u →
      lookupStore (cleanup_expired_trials now today s).1 uid =
        some (if cleanupCond today u then
          mergeUpdate now (statusArgs "free") u else u)) ∧
    (∀ uid u te, lookupStore s uid = some u →
      u.status = "trial" → u.trial_end = some te → te < today →
      (lookupStore (cleanup_expired_trials now today s).1 uid).map
          UserRecord.status = some "free" ∧
      (u.verified = true → (get_user_status s now today uid).1 = "premium") ∧
      (u.verified = false → (get_user_status s now today uid).1 = "free")) ∧
    (∀ uid u, lookupStore s uid = some u →
      u.status = "trial" → u.trial_end = some today →
      lookupStore (cleanup_expired_trials now today s).1 uid = some u ∧
      (get_user_status s now today uid).1 =
        (if u.verified then "premium" else "free")) := by
  have hagree : ∀ q ∈ s, lookupStore s q.1 = some q.2 :=
    fun q hq => lookupStore_of_mem s hnd hq
  have hchar := cleanup_foldl_lookup now today s (s, 0) hnd hagree
  refine ⟨?_, ?_, ?_⟩
  · intro uid u h
    have := hchar uid
    rw [h] at this
    exact this
  · intro uid u te h hst hte hlt
    have hcond : cleanupCond today u = true := by
      simp [cleanupCond, hst, hte, hlt]
    have hch := hchar uid
    rw [h] at hch
    refine ⟨?_, ?_, ?_⟩
    · have hch2 : lookupStore (cleanup_expired_trials now today s).1 uid =
          some (if cleanupCond today u then
            mergeUpdate now (statusArgs "free") u else u) := hch
      rw [hch2, hcond]
      simp [mergeUpdate_status, statusArgs, noArgs]
    · intro hv
      simp [get_user_status, get_user, h, hst, hte, le_of_lt hlt, hv]
    · intro hv
      simp [get_user_status, get_user, h, hst, hte, le_of_lt hlt, hv]
  · intro uid u h hst hte
    have hcond : cleanupCond today u = false := by
      simp [cleanupCond, hst, hte]
    have hch := hchar uid
    rw [h] at hch
    refine ⟨?_, ?_⟩
    · have hch2 : lookupStore (cleanup_expired_trials now today s).1 uid =
          some (if cleanupCond today u then
            mergeUpdate now (statusArgs "free") u else u) := hch
      rw [hch2, hcond]
      simp
    · by_cases hv : u.verified
      · simp [get_user_status, get_user, h, hst, hte, hv]
      · simp [get_user_status, get_user, h, hst, hte, hv]

/-- Witness for C10 at a two-user store: user 1 is a verified trial
user expired before today (cleanup frees, read-path reports premium);
user 2 is a trial user ending exactly today (cleanup keeps, read-path
expires). -/
theorem cleanup_expired_trials_vs_read_path_witness :
    (lookupStore (cleanup_expired_trials 0 10
        [(1, { defaultUser 0 1 with
            status := "trial", trial_end := some 5, verified := true }),
         (2, { defaultUser 0 2 with
            status := "trial", trial_end := some 10 })]).1 1).map
        UserRecord.status = some "free" ∧
    (get_user_status
        [(1, { defaultUser 0 1 with
            status := "trial", trial_end := some 5, verified := true }),
         (2, { defaultUser 0 2 with
            status := "trial", trial_end := some 10 })] 0 10 1).1 = "premium" ∧
    lookupStore (cleanup_expired_trials 0 10
        [(1, { defaultUser 0 1 with
            status := "trial", trial_end := some 5, verified := true }),
         (2, { defaultUser 0 2 with
            status := "trial", trial_end := some 10 })]).1 2 =
      some { defaultUser 0 2 with status := "trial", trial_end := some 10 } ∧
    (get_user_status
        [(1, { defaultUser 0 1 with
            status := "trial", trial_end := some 5, verified := true }),
         (2, { defaultUser 0 2 with
            status := "trial", trial_end := some 10 })] 0 10 2).1 =
      (if ({ defaultUser 0 2 with
          status := "trial", trial_end := some 10 } : UserRecord).verified
       then "premium" else "free") := by
  have h2 := (cleanup_expired_trials_vs_read_path
      [(1, { defaultUser 0 1 with
          status := "trial", trial_end := some 5, verified := true }),
       (2, { defaultUser 0 2 with
          status := "trial", trial_end := some 10 })] 0 10 (by decide)).2.1
      1 { defaultUser 0 1 with
          status := "trial", trial_end := some 5, verified := true } 5
      (by decide) (by decide) (by decide) (by decide)
  have h3 := (cleanup_expired_trials_vs_read_path
      [(1, { defaultUser 0 1 with
          status := "trial", trial_end := some 5, verified := true }),
       (2, { defaultUser 0 2 with
          status := "trial", trial_end := some 10 })] 0 10 (by decide)).2.2
      2 { defaultUser 0 2 with status := "trial", trial_end := some 10 }
      (by decide) (by decide) (by decide)
  exact ⟨h2.1, h2.2.1 (by decide), h3.1, h3.2⟩

end GoldenBot
